import Mathlib

/-!
Verification of the slab-design core of StructNova Africa (`src/app.py`,
`calculate_slab_design` and its material tables).

Embedding conventions:
* Python floats are modelled as exact arithmetic: the chain of derived
  quantities is carried in `ℚ` up to the K value; the lever arm uses a real
  square root, so the lever arm and the steel areas derived from it live
  in `ℝ`.  The source's `round(x, n)` calls only format stored copies and
  are never fed back into later steps, so the model carries the unrounded
  values.
* Dictionary lookups (`CONCRETE_GRADES[...]`, `STEEL_GRADES[...]`) are
  association-list lookups; a missing key (Python `KeyError`) is the
  `.keyError` outcome.
* Python raises `ZeroDivisionError` when the K value is computed with a
  zero effective depth, and `ValueError` when `max()` is applied to an
  empty candidate list; these are the `.zeroDivisionError` and
  `.valueError` outcomes.  Any of these aborts the call with no result,
  matching the source where an exception propagates out of the function.
* The reinforcement-candidate construction is stated over any linear
  ordered field with a floor so that the same definition serves the real
  instantiation inside the pipeline and decidable rational instances.
* Steps 11 (deflection check) and 12 (shear check) of the source produce
  trailing report-only fields (`basic_span_depth_ratio` onward) that no
  verified statement mentions; they are not carried in the result record.
-/

namespace StructNova

/-- Properties of a concrete grade: `{'fck': ..., 'fctm': ...}`. -/
structure ConcreteProps where
  fck : ℚ
  fctm : ℚ
deriving DecidableEq

/-- Properties of a steel grade: `{'fy': ..., 'Es': ...}`. -/
structure SteelProps where
  fy : ℚ
  Es : ℚ
deriving DecidableEq

/-- `CONCRETE_GRADES` table from `src/app.py`. -/
def CONCRETE_GRADES : List (String × ConcreteProps) :=
  [("C20", ⟨20, 2.2⟩), ("C25", ⟨25, 2.6⟩), ("C30", ⟨30, 2.9⟩),
   ("C35", ⟨35, 3.2⟩), ("C40", ⟨40, 3.5⟩)]

/-- `STEEL_GRADES` table from `src/app.py`. -/
def STEEL_GRADES : List (String × SteelProps) :=
  [("460", ⟨460, 200000⟩), ("500", ⟨500, 200000⟩)]

/-- `BAR_AREAS` table from `src/app.py` (bar designation → area in mm²). -/
def BAR_AREAS : List (String × ℚ) :=
  [("Y8", 50.3), ("Y10", 78.5), ("Y12", 113.1),
   ("Y16", 201.1), ("Y20", 314.2), ("Y25", 490.9)]

/-- Step 1: `ultimate_load = (1.4 * dead_load) + (1.6 * live_load)`. -/
def ultimate_load (dead_load live_load : ℚ) : ℚ :=
  1.4 * dead_load + 1.6 * live_load

/-- Step 2: `moment = (ultimate_load * span ** 2) / 8`. -/
def moment (u span : ℚ) : ℚ :=
  u * span ^ 2 / 8

/-- Step 3: `estimated_depth = (span * 1000) / 25`. -/
def estimated_depth (span : ℚ) : ℚ :=
  span * 1000 / 25

/-- Step 3: `slab_depth = math.ceil(estimated_depth / 25) * 25`. -/
def slab_depth (span : ℚ) : ℤ :=
  ⌈estimated_depth span / 25⌉ * 25

/-- Step 4: `effective_depth = slab_depth - cover - (assumed_bar_dia / 2)`
with `assumed_bar_dia = 12`. -/
def effective_depth (span cover : ℚ) : ℚ :=
  (slab_depth span : ℚ) - cover - 12 / 2

/-- Step 5: `K = (moment * 1e6) / (b * d ** 2 * fck)` with `b = 1000`. -/
def K (m d fck : ℚ) : ℚ :=
  m * 1000000 / (1000 * d ^ 2 * fck)

/-- Step 7: the lever arm,
`z = d * (0.5 + math.sqrt(0.25 - K / 1.134))`, then `z = min(z, 0.95 * d)`,
for `K ≤ 0.156`; else `z = 0.95 * d`. -/
noncomputable def lever_arm (d k : ℚ) : ℝ :=
  if k ≤ 0.156 then
    min ((d : ℝ) * (0.5 + Real.sqrt (0.25 - (k : ℝ) / 1.134))) (0.95 * (d : ℝ))
  else
    0.95 * (d : ℝ)

/-- Step 8: `As_required = (moment * 1e6) / (0.87 * fy * z)`. -/
noncomputable def As_required (m fy : ℚ) (z : ℝ) : ℝ :=
  ((m : ℝ) * 1000000) / (0.87 * (fy : ℝ) * z)

/-- Step 9: `As_min = 0.0013 * b * slab_depth` with `b = 1000`. -/
def As_min (h : ℤ) : ℚ :=
  0.0013 * 1000 * (h : ℚ)

/-- Step 9: `As_provided = max(As_required, As_min)`. -/
noncomputable def As_provided (asr : ℝ) (asm : ℚ) : ℝ :=
  max asr (asm : ℝ)

/-- One evaluated reinforcement candidate (an entry of
`reinforcement_options` in the source). -/
structure ReinfOption where
  bar_size : String
  bar_area : ℚ
  spacing : ℤ
  As_actual : ℚ
  adequate : Bool
deriving DecidableEq

section Candidates

variable {α : Type} [LinearOrderedField α] [FloorRing α]

/-- Step 10, loop body: from one `BAR_AREAS` entry build the candidate —
`spacing = (bar_area * 1000) / As_provided`,
`spacing_practical = math.floor(spacing / 25) * 25` clamped by
`max(75, min(spacing_practical, 300))`, and
`As_actual = (bar_area * 1000) / spacing_practical`; the candidate is
`adequate` iff `As_actual >= As_required`.  The spacing computation is
stated over any linear ordered field with a floor so that the real
instantiation of the pipeline and decidable rational instances share it. -/
def mkOption (asp asreq : α) (p : String × ℚ) : ReinfOption :=
  let spacing_raw : α := (p.2 : α) * 1000 / asp
  let spacing_practical : ℤ := max 75 (min (⌊spacing_raw / 25⌋ * 25) 300)
  { bar_size := p.1
    bar_area := p.2
    spacing := spacing_practical
    As_actual := p.2 * 1000 / (spacing_practical : ℚ)
    adequate := decide (asreq ≤ ((p.2 * 1000 / (spacing_practical : ℚ) : ℚ) : α)) }

/-- Step 10, loop: one candidate per `BAR_AREAS` entry, in table order,
each appended only under the source's `if As_provided > 0` guard. -/
def reinforcementOptions (asp asreq : α) : List ReinfOption :=
  BAR_AREAS.foldr (fun p acc => if 0 < asp then mkOption asp asreq p :: acc else acc) []

end Candidates

/-- Python's `min(l, key=key)`: scan left to right, replacing the current
best only when the key is strictly smaller, so the first minimum wins. -/
def minByAux {β γ : Type} [LinearOrder γ] (key : β → γ) : β → List β → β
  | b, [] => b
  | b, y :: ys => minByAux key (if key y < key b then y else b) ys

/-- Python's `max(l, key=key)`: scan left to right, replacing the current
best only when the key is strictly larger, so the first maximum wins. -/
def maxByAux {β γ : Type} [LinearOrder γ] (key : β → γ) : β → List β → β
  | b, [] => b
  | b, y :: ys => maxByAux key (if key b < key y then y else b) ys

/-- Step 10, selection: `min(adequate_options, key=bar_area)` when any
candidate is adequate, else `max(reinforcement_options, key=As_actual)`;
`none` models the `ValueError` Python's `max` raises on an empty list. -/
def selectReinforcement (opts : List ReinfOption) : Option ReinfOption :=
  match opts.filter (fun o => o.adequate) with
  | a :: l => some (minByAux (fun o => o.bar_area) a l)
  | [] =>
    match opts with
    | [] => none
    | o :: l => some (maxByAux (fun o => o.As_actual) o l)

/-- The result dictionary built by `calculate_slab_design`, restricted to
the fields up to the reinforcement selection (steps 1–10); the trailing
deflection/shear report fields are not modelled. -/
structure DesignResult where
  span : ℚ
  dead_load : ℚ
  live_load : ℚ
  cover : ℚ
  fck : ℚ
  fy : ℚ
  ultimate_load : ℚ
  moment : ℚ
  estimated_depth : ℚ
  slab_depth : ℤ
  effective_depth : ℚ
  K : ℚ
  compression_reinforcement_needed : Bool
  lever_arm : ℝ
  As_required : ℝ
  As_min : ℚ
  As_provided : ℝ
  reinforcement_options : List ReinfOption
  selected_reinforcement : ReinfOption

/-- How a `calculate_slab_design` call can abort: the Python exceptions
`KeyError` (unknown grade), `ZeroDivisionError` (K computed with zero
effective depth) and `ValueError` (`max()` over no candidates). -/
inductive CalcError where
  | keyError : CalcError
  | zeroDivisionError : CalcError
  | valueError : CalcError
deriving DecidableEq

/-- The assembled result record for given material properties (the body of
`calculate_slab_design` once both grade lookups have succeeded). -/
noncomputable def designResult (span dead_load live_load : ℚ)
    (con : ConcreteProps) (st : SteelProps) (cover : ℚ) : DesignResult :=
  let u := ultimate_load dead_load live_load
  let m := moment u span
  let h := slab_depth span
  let d := effective_depth span cover
  let k := K m d con.fck
  let z := lever_arm d k
  let asr := As_required m st.fy z
  let asm := As_min h
  let asp := As_provided asr asm
  let opts := reinforcementOptions asp asr
  { span := span
    dead_load := dead_load
    live_load := live_load
    cover := cover
    fck := con.fck
    fy := st.fy
    ultimate_load := u
    moment := m
    estimated_depth := estimated_depth span
    slab_depth := h
    effective_depth := d
    K := k
    compression_reinforcement_needed := decide (0.156 < k)
    lever_arm := z
    As_required := asr
    As_min := asm
    As_provided := asp
    reinforcement_options := opts
    selected_reinforcement := (selectReinforcement opts).getD ⟨"", 0, 0, 0, false⟩ }

/-- `calculate_slab_design` from `src/app.py`: both grade lookups (Python
`KeyError` when absent), then the arithmetic pipeline; the division by
`d ** 2` in the K step raises `ZeroDivisionError` when the effective depth
is zero, and the selection step raises `ValueError` when it has no
candidate, otherwise the full result is returned. -/
noncomputable def calculate_slab_design (span dead_load live_load : ℚ)
    (concrete_grade steel_grade : String) (cover : ℚ) :
    Except CalcError DesignResult :=
  match CONCRETE_GRADES.lookup concrete_grade with
  | none => .error .keyError
  | some con =>
    match STEEL_GRADES.lookup steel_grade with
    | none => .error .keyError
    | some st =>
      let u := ultimate_load dead_load live_load
      let m := moment u span
      let h := slab_depth span
      let d := effective_depth span cover
      if d = 0 then .error .zeroDivisionError
      else
        let k := K m d con.fck
        let z := lever_arm d k
        let asr := As_required m st.fy z
        let asm := As_min h
        let asp := As_provided asr asm
        let opts := reinforcementOptions asp asr
        match selectReinforcement opts with
        | none => .error .valueError
        | some _ => .ok (designResult span dead_load live_load con st cover)

/-! ### Helper lemmas -/

/-- The scan of `minByAux` never ends on a key larger than the initial one. -/
lemma minByAux_le_init {β γ : Type} [LinearOrder γ] (key : β → γ) (b : β) (l : List β) :
    key (minByAux key b l) ≤ key b := by
  induction l generalizing b with
  | nil => exact le_refl _
  | cons y ys ih =>
    simp only [minByAux]
    by_cases hc : key y < key b
    · rw [if_pos hc]
      exact le_trans (ih y) (le_of_lt hc)
    · rw [if_neg hc]
      exact ih b

/-- The scan of `maxByAux` never ends on a key smaller than the initial one. -/
lemma maxByAux_ge_init {β γ : Type} [LinearOrder γ] (key : β → γ) (b : β) (l : List β) :
    key b ≤ key (maxByAux key b l) := by
  induction l generalizing b with
  | nil => exact le_refl _
  | cons y ys ih =>
    simp only [maxByAux]
    by_cases hc : key b < key y
    · rw [if_pos hc]
      exact le_trans (le_of_lt hc) (ih y)
    · rw [if_neg hc]
      exact ih b

/-- `minByAux` returns the first element attaining the minimum key of the
scanned list `b :: l`: everything before it is strictly larger, everything
after it is at least as large. -/
lemma minByAux_first {β γ : Type} [LinearOrder γ] (key : β → γ) (l : List β) (b : β) :
    ∃ l₁ l₂, b :: l = l₁ ++ minByAux key b l :: l₂ ∧
      (∀ y ∈ l₁, key (minByAux key b l) < key y) ∧
      (∀ y ∈ l₂, key (minByAux key b l) ≤ key y) := by
  induction l generalizing b with
  | nil => exact ⟨[], [], rfl, by simp, by simp⟩
  | cons y ys ih =>
    by_cases hc : key y < key b
    · have hstep : minByAux key b (y :: ys) = minByAux key y ys := by
        simp only [minByAux, if_pos hc]
      obtain ⟨l₁, l₂, heq, h₁, h₂⟩ := ih y
      rw [hstep]
      refine ⟨b :: l₁, l₂, ?_, ?_, h₂⟩
      · simp only [List.cons_append]
        rw [heq]
      · intro z hz
        rcases List.mem_cons.mp hz with rfl | hz'
        · exact lt_of_le_of_lt (minByAux_le_init key y ys) hc
        · exact h₁ z hz'
    · have hstep : minByAux key b (y :: ys) = minByAux key b ys := by
        simp only [minByAux, if_neg hc]
      have hby : key b ≤ key y := le_of_not_lt hc
      obtain ⟨l₁, l₂, heq, h₁, h₂⟩ := ih b
      rw [hstep]
      cases l₁ with
      | nil =>
        simp only [List.nil_append] at heq
        injection heq with hrb hl₂
        refine ⟨[], y :: ys, ?_, by simp, ?_⟩
        · simp [← hrb]
        · intro z hz
          rcases List.mem_cons.mp hz with rfl | hz'
          · rw [← hrb]
            exact hby
          · rw [← hrb] at h₂ ⊢
            exact h₂ z (hl₂ ▸ hz')
      | cons c t =>
        simp only [List.cons_append] at heq
        injection heq with hbc hys
        subst hbc
        refine ⟨b :: y :: t, l₂, ?_, ?_, h₂⟩
        · simp only [List.cons_append]
          conv_lhs => rw [hys]
        · have hrb : key (minByAux key b ys) < key b := h₁ b (by simp)
          intro z hz
          rcases List.mem_cons.mp hz with rfl | hz'
          · exact hrb
          rcases List.mem_cons.mp hz' with rfl | hz''
          · exact lt_of_lt_of_le hrb hby
          · exact h₁ z (by simp [hz''])

/-- `maxByAux` returns the first element attaining the maximum key of the
scanned list `b :: l`: everything before it is strictly smaller, everything
after it is at most as large. -/
lemma maxByAux_first {β γ : Type} [LinearOrder γ] (key : β → γ) (l : List β) (b : β) :
    ∃ l₁ l₂, b :: l = l₁ ++ maxByAux key b l :: l₂ ∧
      (∀ y ∈ l₁, key y < key (maxByAux key b l)) ∧
      (∀ y ∈ l₂, key y ≤ key (maxByAux key b l)) := by
  induction l generalizing b with
  | nil => exact ⟨[], [], rfl, by simp, by simp⟩
  | cons y ys ih =>
    by_cases hc : key b < key y
    · have hstep : maxByAux key b (y :: ys) = maxByAux key y ys := by
        simp only [maxByAux, if_pos hc]
      obtain ⟨l₁, l₂, heq, h₁, h₂⟩ := ih y
      rw [hstep]
      refine ⟨b :: l₁, l₂, ?_, ?_, h₂⟩
      · simp only [List.cons_append]
        rw [heq]
      · intro z hz
        rcases List.mem_cons.mp hz with rfl | hz'
        · exact lt_of_lt_of_le hc (maxByAux_ge_init key y ys)
        · exact h₁ z hz'
    · have hstep : maxByAux key b (y :: ys) = maxByAux key b ys := by
        simp only [maxByAux, if_neg hc]
      have hby : key y ≤ key b := le_of_not_lt hc
      obtain ⟨l₁, l₂, heq, h₁, h₂⟩ := ih b
      rw [hstep]
      cases l₁ with
      | nil =>
        simp only [List.nil_append] at heq
        injection heq with hrb hl₂
        refine ⟨[], y :: ys, ?_, by simp, ?_⟩
        · simp [← hrb]
        · intro z hz
          rcases List.mem_cons.mp hz with rfl | hz'
          · rw [← hrb]
            exact hby
          · rw [← hrb] at h₂ ⊢
            exact h₂ z (hl₂ ▸ hz')
      | cons c t =>
        simp only [List.cons_append] at heq
        injection heq with hbc hys
        subst hbc
        refine ⟨b :: y :: t, l₂, ?_, ?_, h₂⟩
        · simp only [List.cons_append]
          conv_lhs => rw [hys]
        · have hrb : key b < key (maxByAux key b ys) := h₁ b (by simp)
          intro z hz
          rcases List.mem_cons.mp hz with rfl | hz'
          · exact hrb
          rcases List.mem_cons.mp hz' with rfl | hz''
          · exact lt_of_le_of_lt hby hrb
          · exact h₁ z (by simp [hz''])

section CandidateLemmas

variable {α : Type} [LinearOrderedField α] [FloorRing α]

/-- Field-level facts about one built candidate: the clamped practical
spacing formula, its range and 25-mm granularity, and the actual-steel-area
formula. -/
lemma mkOption_props (asp asreq : α) (p : String × ℚ) :
    (mkOption asp asreq p).bar_size = p.1 ∧
    (mkOption asp asreq p).bar_area = p.2 ∧
    (mkOption asp asreq p).spacing =
      max 75 (min (⌊(p.2 : α) * 1000 / asp / 25⌋ * 25) 300) ∧
    75 ≤ (mkOption asp asreq p).spacing ∧
    (mkOption asp asreq p).spacing ≤ 300 ∧
    (25 : ℤ) ∣ (mkOption asp asreq p).spacing ∧
    (mkOption asp asreq p).As_actual =
      p.2 * 1000 / (((mkOption asp asreq p).spacing : ℤ) : ℚ) := by
  refine ⟨rfl, rfl, rfl, le_max_left _ _, ?_, ?_, rfl⟩
  · show max (75 : ℤ) (min (⌊(p.2 : α) * 1000 / asp / 25⌋ * 25) 300) ≤ 300
    exact max_le (by norm_num) (min_le_right _ _)
  · show (25 : ℤ) ∣ max 75 (min (⌊(p.2 : α) * 1000 / asp / 25⌋ * 25) 300)
    rcases max_choice (75 : ℤ) (min (⌊(p.2 : α) * 1000 / asp / 25⌋ * 25) 300) with h | h <;>
      rw [h]
    · norm_num
    · rcases min_choice (⌊(p.2 : α) * 1000 / asp / 25⌋ * 25) (300 : ℤ) with h2 | h2 <;>
        rw [h2]
      · exact dvd_mul_left 25 _
      · norm_num

/-- With a positive provided area the candidate loop keeps every bar size,
in table order. -/
lemma reinforcementOptions_pos (asp asreq : α) (h : 0 < asp) :
    reinforcementOptions asp asreq =
      [mkOption asp asreq ("Y8", 50.3), mkOption asp asreq ("Y10", 78.5),
       mkOption asp asreq ("Y12", 113.1), mkOption asp asreq ("Y16", 201.1),
       mkOption asp asreq ("Y20", 314.2), mkOption asp asreq ("Y25", 490.9)] := by
  simp only [reinforcementOptions, BAR_AREAS, List.foldr_cons, List.foldr_nil, if_pos h]

/-- Every evaluated candidate comes from a `BAR_AREAS` entry (and the loop
ran under a positive provided area). -/
lemma mem_reinforcementOptions {asp asreq : α} {opt : ReinfOption}
    (h : opt ∈ reinforcementOptions asp asreq) :
    0 < asp ∧ ∃ p ∈ BAR_AREAS, opt = mkOption asp asreq p := by
  by_cases hpos : 0 < asp
  · refine ⟨hpos, ?_⟩
    rw [reinforcementOptions_pos asp asreq hpos] at h
    simp only [List.mem_cons, List.not_mem_nil, or_false] at h
    rcases h with h | h | h | h | h | h <;>
      exact ⟨_, by simp [BAR_AREAS], h⟩
  · exfalso
    simp only [reinforcementOptions, BAR_AREAS, List.foldr_cons, List.foldr_nil,
      if_neg hpos] at h
    exact List.not_mem_nil _ h

end CandidateLemmas

/-- A nonempty candidate list always yields a selection. -/
lemma selectReinforcement_ne_none {opts : List ReinfOption} (h : opts ≠ []) :
    ∃ sel, selectReinforcement opts = some sel := by
  unfold selectReinforcement
  split
  · exact ⟨_, rfl⟩
  · split
    · exact absurd rfl h
    · exact ⟨_, rfl⟩

/-- A positive provided area yields a selection. -/
lemma selectReinforcement_options_some {α : Type} [LinearOrderedField α] [FloorRing α]
    (asp asreq : α) (h : 0 < asp) :
    ∃ sel, selectReinforcement (reinforcementOptions asp asreq) = some sel :=
  selectReinforcement_ne_none (by rw [reinforcementOptions_pos asp asreq h]; simp)

/-- For a positive span the chosen slab depth is at least one 25-mm step. -/
lemma slab_depth_ge {span : ℚ} (h : 0 < span) : 25 ≤ slab_depth span := by
  unfold slab_depth
  have h1 : 0 < estimated_depth span / 25 := by
    unfold estimated_depth
    positivity
  have h3 : 1 ≤ ⌈estimated_depth span / 25⌉ := Int.ceil_pos.mpr h1
  have := mul_le_mul_of_nonneg_right h3 (by norm_num : (0 : ℤ) ≤ 25)
  simpa using this

/-- The ceiling step never under-estimates the span/25 target. -/
lemma estimated_le_slab (span : ℚ) :
    estimated_depth span ≤ ((slab_depth span : ℤ) : ℚ) := by
  unfold slab_depth
  have h1 : estimated_depth span / 25 ≤ (⌈estimated_depth span / 25⌉ : ℚ) := Int.le_ceil _
  push_cast
  linarith

/-- A slab depth of at least 25 mm gives a minimum steel area of at
least 32.5 mm². -/
lemma As_min_ge {h : ℤ} (hh : 25 ≤ h) : 32.5 ≤ As_min h := by
  unfold As_min
  have h1 : (25 : ℚ) ≤ (h : ℚ) := by exact_mod_cast hh
  linarith

/-- The provided steel area sits above the minimum, hence is positive for
any slab depth of at least 25 mm. -/
lemma As_provided_pos (asr : ℝ) {h : ℤ} (hh : 25 ≤ h) :
    0 < As_provided asr (As_min h) := by
  have h1 : (32.5 : ℚ) ≤ As_min h := As_min_ge hh
  have h2 : ((As_min h : ℚ) : ℝ) ≤ As_provided asr (As_min h) := le_max_right _ _
  have h3 : (((32.5 : ℚ)) : ℝ) ≤ ((As_min h : ℚ) : ℝ) := Rat.cast_le.mpr h1
  have h4 : (0 : ℝ) < ((32.5 : ℚ) : ℝ) := by norm_num
  linarith

/-- Pipeline success: with both grades found, a nonzero effective depth and
a positive span, `calculate_slab_design` returns the assembled record. -/
lemma calc_ok {span dead_load live_load cover : ℚ} {cg sg : String}
    {con : ConcreteProps} {st : SteelProps}
    (hc : CONCRETE_GRADES.lookup cg = some con)
    (hs : STEEL_GRADES.lookup sg = some st)
    (hd : effective_depth span cover ≠ 0) (hspan : 0 < span) :
    calculate_slab_design span dead_load live_load cg sg cover =
      .ok (designResult span dead_load live_load con st cover) := by
  obtain ⟨sel, hsel⟩ :=
    selectReinforcement_options_some
      (As_provided
        (As_required (moment (ultimate_load dead_load live_load) span) st.fy
          (lever_arm (effective_depth span cover)
            (K (moment (ultimate_load dead_load live_load) span)
              (effective_depth span cover) con.fck)))
        (As_min (slab_depth span)))
      (As_required (moment (ultimate_load dead_load live_load) span) st.fy
        (lever_arm (effective_depth span cover)
          (K (moment (ultimate_load dead_load live_load) span)
            (effective_depth span cover) con.fck)))
      (As_provided_pos _ (slab_depth_ge hspan))
  simp only [calculate_slab_design, hc, hs]
  rw [if_neg hd, hsel]

/-- Pipeline failure at the K step: a zero effective depth reproduces
Python's `ZeroDivisionError`. -/
lemma calc_zero {span dead_load live_load cover : ℚ} {cg sg : String}
    {con : ConcreteProps} {st : SteelProps}
    (hc : CONCRETE_GRADES.lookup cg = some con)
    (hs : STEEL_GRADES.lookup sg = some st)
    (hd : effective_depth span cover = 0) :
    calculate_slab_design span dead_load live_load cg sg cover =
      .error .zeroDivisionError := by
  simp only [calculate_slab_design, hc, hs]
  rw [if_pos hd]

/-! ### Claim theorems -/

/-- The concrete ceiling values the scenario inputs hit (spans 4, 0.5, 1
and 2 m give span·40/25 of 6.4, 0.8, 1.6 and 3.2). -/
lemma ceil_estA : (⌈(32 : ℚ) / 5⌉ : ℤ) = 7 := by
  rw [Int.ceil_eq_iff]
  norm_num

/-- Ceiling value for the 0.5-m span (estimate 20 mm, 20/25 = 4/5). -/
lemma ceil_estC : (⌈(4 : ℚ) / 5⌉ : ℤ) = 1 := by
  rw [Int.ceil_eq_iff]
  norm_num

/-- Ceiling value for the 1-m span (estimate 40 mm, 40/25 = 8/5). -/
lemma ceil_est1 : (⌈(8 : ℚ) / 5⌉ : ℤ) = 2 := by
  rw [Int.ceil_eq_iff]
  norm_num

/-- Ceiling value for the 2-m span (estimate 80 mm, 80/25 = 16/5). -/
lemma ceil_est2 : (⌈(16 : ℚ) / 5⌉ : ℤ) = 4 := by
  rw [Int.ceil_eq_iff]
  norm_num

/-- C1 (counterexample): at Scenario A's input (span 4, dead 3, live 2,
C25/460, cover 25) the code's K value is exactly 37/1296 ≈ 0.0285, which is
not ≈ 0.0147 (not even within half a unit of the 4-decimal display). -/
theorem c1_counterexample :
    (calculate_slab_design 4 3 2 "C25" "460" 25).map (fun r => r.K) =
      .ok (37 / 1296) ∧
    ¬((0.0147 - 0.00005 : ℚ) ≤ 37 / 1296 ∧ (37 / 1296 : ℚ) ≤ 0.0147 + 0.00005) := by
  have hc : CONCRETE_GRADES.lookup "C25" = some ⟨25, 2.6⟩ := rfl
  have hs : STEEL_GRADES.lookup "460" = some ⟨460, 200000⟩ := rfl
  have hd : effective_depth 4 25 ≠ 0 := by
    norm_num [effective_depth, slab_depth, estimated_depth, ceil_estA]
  refine ⟨?_, by norm_num⟩
  rw [calc_ok hc hs hd (by norm_num)]
  simp only [Except.map]
  congr 1
  norm_num [designResult, K, moment, ultimate_load, estimated_depth, slab_depth,
    effective_depth, ceil_estA]

/-- C1 (amended): for span 4, dead 3, live 2, C25, 460, cover 25 the code
returns ultimateLoad 7.4 kN/m², moment 14.8 kN·m, estimated depth 160 mm
rounded up to slab depth 175 mm, effective depth 144 mm, and K = 37/1296
≈ 0.0285 (not 0.0147), which is ≤ 0.156 so no compression reinforcement is
flagged. -/
theorem c1_amended :
    (calculate_slab_design 4 3 2 "C25" "460" 25).map
        (fun r => (r.ultimate_load, r.moment, r.estimated_depth, r.slab_depth,
          r.effective_depth, r.K, r.compression_reinforcement_needed)) =
      .ok (7.4, 14.8, 160, 175, 144, 37 / 1296, false) ∧
    (0.0285 - 0.00005 : ℚ) ≤ 37 / 1296 ∧ (37 / 1296 : ℚ) ≤ 0.0285 + 0.00005 ∧
    (37 / 1296 : ℚ) ≤ 0.156 := by
  have hc : CONCRETE_GRADES.lookup "C25" = some ⟨25, 2.6⟩ := rfl
  have hs : STEEL_GRADES.lookup "460" = some ⟨460, 200000⟩ := rfl
  have hd : effective_depth 4 25 ≠ 0 := by
    norm_num [effective_depth, slab_depth, estimated_depth, ceil_estA]
  refine ⟨?_, by norm_num, by norm_num, by norm_num⟩
  rw [calc_ok hc hs hd (by norm_num)]
  simp only [Except.map]
  congr 1
  norm_num [designResult, K, moment, ultimate_load, estimated_depth, slab_depth,
    effective_depth, ceil_estA, Prod.mk.injEq, decide_eq_false_iff_not]

/-- C2: at span 0.5 m with cover 75 mm the effective depth is −56 ≤ 0, yet
`calculate_slab_design` does not fail with any degenerate-geometry
condition: it carries on and computes K = 37/12544 from the squared
negative depth, returning a full result for the modelled steps (the
unmodelled shear step of the source then dies on an untyped error). -/
theorem c2_code_eval :
    (calculate_slab_design 0.5 3 2 "C25" "460" 75).map
        (fun r => (r.effective_depth, r.K)) = .ok (-56, 37 / 12544) ∧
    effective_depth 0.5 75 ≤ 0 := by
  have hc : CONCRETE_GRADES.lookup "C25" = some ⟨25, 2.6⟩ := rfl
  have hs : STEEL_GRADES.lookup "460" = some ⟨460, 200000⟩ := rfl
  have hd : effective_depth 0.5 75 ≠ 0 := by
    norm_num [effective_depth, slab_depth, estimated_depth, ceil_estC]
  refine ⟨?_, by norm_num [effective_depth, slab_depth, estimated_depth, ceil_estC]⟩
  rw [calc_ok hc hs hd (by norm_num)]
  simp only [Except.map]
  congr 1
  norm_num [designResult, K, moment, ultimate_load, estimated_depth, slab_depth,
    effective_depth, ceil_estC, Prod.mk.injEq]

/-- C3: an unknown concrete or steel grade makes `calculate_slab_design`
fail with the grade-lookup error (Python's `KeyError`, the spec's
`UnknownGrade`) before any design arithmetic runs, so no partial result
fields ever reach the caller. -/
theorem c3_unknown_grade (span dead_load live_load cover : ℚ) (cg sg : String)
    (h : CONCRETE_GRADES.lookup cg = none ∨ STEEL_GRADES.lookup sg = none) :
    calculate_slab_design span dead_load live_load cg sg cover =
      .error .keyError := by
  unfold calculate_slab_design
  rcases h with h | h
  · rw [h]
  · cases hc : CONCRETE_GRADES.lookup cg with
    | none => rfl
    | some con => simp only [h]

/-- Witness for C3 at the spec's Scenario B grade "C99". -/
theorem c3_witness :
    (CONCRETE_GRADES.lookup "C99" = none ∨ STEEL_GRADES.lookup "460" = none) ∧
    calculate_slab_design 4 3 2 "C99" "460" 25 = .error .keyError :=
  ⟨Or.inl (by decide), c3_unknown_grade 4 3 2 25 "C99" "460" (Or.inl (by decide))⟩

/-- C4 (counterexample): both loads zero is a valid input (loads ≥ 0,
span > 0), the ultimate load is then 0, and raising the span from 1 m to
2 m leaves the computed moment at 0 — not a strict increase. -/
theorem c4_counterexample :
    (0 : ℚ) ≤ 0 ∧ (1 : ℚ) < 2 ∧
    (calculate_slab_design 1 0 0 "C25" "460" 25).map (fun r => r.moment) =
      .ok 0 ∧
    (calculate_slab_design 2 0 0 "C25" "460" 25).map (fun r => r.moment) =
      .ok 0 := by
  have hc : CONCRETE_GRADES.lookup "C25" = some ⟨25, 2.6⟩ := rfl
  have hs : STEEL_GRADES.lookup "460" = some ⟨460, 200000⟩ := rfl
  have hd1 : effective_depth 1 25 ≠ 0 := by
    norm_num [effective_depth, slab_depth, estimated_depth, ceil_est1]
  have hd2 : effective_depth 2 25 ≠ 0 := by
    norm_num [effective_depth, slab_depth, estimated_depth, ceil_est2]
  refine ⟨le_refl 0, by norm_num, ?_, ?_⟩
  · rw [calc_ok hc hs hd1 (by norm_num)]
    simp only [Except.map]
    congr 1
    norm_num [designResult, moment, ultimate_load]
  · rw [calc_ok hc hs hd2 (by norm_num)]
    simp only [Except.map]
    congr 1
    norm_num [designResult, moment, ultimate_load]

/-- C4 (amended): holding all else fixed, strictly increasing the span
strictly increases the moment provided the factored ultimate load
1.4·dead + 1.6·live is positive (it is zero when both loads are zero);
strictly increasing either load strictly increases the ultimate load, and
the moment too (the span being positive). -/
theorem c4_amended (dead_load dead2 live_load live2 s s2 : ℚ)
    (_hdl : 0 ≤ dead_load) (_hll : 0 ≤ live_load) (hs : 0 < s) :
    (s < s2 → 0 < ultimate_load dead_load live_load →
      moment (ultimate_load dead_load live_load) s <
        moment (ultimate_load dead_load live_load) s2) ∧
    (dead_load < dead2 →
      ultimate_load dead_load live_load < ultimate_load dead2 live_load ∧
      moment (ultimate_load dead_load live_load) s <
        moment (ultimate_load dead2 live_load) s) ∧
    (live_load < live2 →
      ultimate_load dead_load live_load < ultimate_load dead_load live2 ∧
      moment (ultimate_load dead_load live_load) s <
        moment (ultimate_load dead_load live2) s) := by
  unfold moment ultimate_load
  have hs2 : 0 < s ^ 2 := pow_pos hs 2
  refine ⟨?_, ?_, ?_⟩
  · intro h1 h2
    have hss : s ^ 2 < s2 ^ 2 := by nlinarith
    have := mul_lt_mul_of_pos_left hss h2
    linarith
  · intro h
    have hu : 1.4 * dead_load + 1.6 * live_load < 1.4 * dead2 + 1.6 * live_load := by
      linarith
    have := mul_lt_mul_of_pos_right hu hs2
    exact ⟨hu, by linarith⟩
  · intro h
    have hu : 1.4 * dead_load + 1.6 * live_load < 1.4 * dead_load + 1.6 * live2 := by
      linarith
    have := mul_lt_mul_of_pos_right hu hs2
    exact ⟨hu, by linarith⟩

/-- Witness for C4 (amended) at dead 3→4, live 2→3, span 4→5. -/
theorem c4_witness :
    ((0 : ℚ) ≤ 3 ∧ (0 : ℚ) ≤ 2 ∧ (0 : ℚ) < 4) ∧
    (((4 : ℚ) < 5 → 0 < ultimate_load 3 2 →
      moment (ultimate_load 3 2) 4 < moment (ultimate_load 3 2) 5) ∧
    ((3 : ℚ) < 4 →
      ultimate_load 3 2 < ultimate_load 4 2 ∧
      moment (ultimate_load 3 2) 4 < moment (ultimate_load 4 2) 4) ∧
    ((2 : ℚ) < 3 →
      ultimate_load 3 2 < ultimate_load 3 3 ∧
      moment (ultimate_load 3 2) 4 < moment (ultimate_load 3 3) 4)) :=
  ⟨⟨by norm_num, by norm_num, by norm_num⟩,
    c4_amended 3 4 2 3 4 5 (by norm_num) (by norm_num) (by norm_num)⟩

/-- C5: the selection step picks, among adequate candidates, the first one
of minimal bar area (every earlier adequate candidate has a strictly
larger bar area, every later one no smaller); when no candidate is
adequate it picks the first candidate of maximal actual steel area over
the whole evaluated list. -/
theorem c5_selection (opts : List ReinfOption) (sel : ReinfOption)
    (h : selectReinforcement opts = some sel) :
    (opts.filter (fun o => o.adequate) ≠ [] →
      ∃ l₁ l₂, opts.filter (fun o => o.adequate) = l₁ ++ sel :: l₂ ∧
        (∀ o ∈ l₁, sel.bar_area < o.bar_area) ∧
        (∀ o ∈ l₂, sel.bar_area ≤ o.bar_area)) ∧
    (opts.filter (fun o => o.adequate) = [] →
      ∃ l₁ l₂, opts = l₁ ++ sel :: l₂ ∧
        (∀ o ∈ l₁, o.As_actual < sel.As_actual) ∧
        (∀ o ∈ l₂, o.As_actual ≤ sel.As_actual)) := by
  unfold selectReinforcement at h
  cases hf : opts.filter (fun o => o.adequate) with
  | cons a l =>
    simp only [hf, Option.some.injEq] at h
    subst h
    refine ⟨fun _ => ?_, fun hemp => absurd hemp (by simp)⟩
    exact minByAux_first (fun o => o.bar_area) l a
  | nil =>
    simp only [hf] at h
    cases opts with
    | nil => simp at h
    | cons o os =>
      simp only [Option.some.injEq] at h
      subst h
      refine ⟨fun hne => absurd rfl hne, fun _ => ?_⟩
      exact maxByAux_first (fun o => o.As_actual) os o

/-- Witness for C5 on a concrete candidate list with two adequate entries:
the selection is the adequate candidate of smallest bar area. -/
theorem c5_witness :
    (selectReinforcement
        [⟨"A", 2, 100, 30, true⟩, ⟨"B", 1, 100, 20, true⟩,
         ⟨"C", 1, 100, 10, false⟩] =
      some ⟨"B", 1, 100, 20, true⟩) ∧
    (([⟨"A", 2, 100, 30, true⟩, ⟨"B", 1, 100, 20, true⟩,
       ⟨"C", 1, 100, 10, false⟩] : List ReinfOption).filter
        (fun o => o.adequate) ≠ [] →
      ∃ l₁ l₂, ([⟨"A", 2, 100, 30, true⟩, ⟨"B", 1, 100, 20, true⟩,
       ⟨"C", 1, 100, 10, false⟩] : List ReinfOption).filter (fun o => o.adequate) =
          l₁ ++ (⟨"B", 1, 100, 20, true⟩ : ReinfOption) :: l₂ ∧
        (∀ o ∈ l₁, (⟨"B", 1, 100, 20, true⟩ : ReinfOption).bar_area < o.bar_area) ∧
        (∀ o ∈ l₂, (⟨"B", 1, 100, 20, true⟩ : ReinfOption).bar_area ≤ o.bar_area)) ∧
    (([⟨"A", 2, 100, 30, true⟩, ⟨"B", 1, 100, 20, true⟩,
       ⟨"C", 1, 100, 10, false⟩] : List ReinfOption).filter
        (fun o => o.adequate) = [] →
      ∃ l₁ l₂, ([⟨"A", 2, 100, 30, true⟩, ⟨"B", 1, 100, 20, true⟩,
       ⟨"C", 1, 100, 10, false⟩] : List ReinfOption) =
          l₁ ++ (⟨"B", 1, 100, 20, true⟩ : ReinfOption) :: l₂ ∧
        (∀ o ∈ l₁, o.As_actual < (⟨"B", 1, 100, 20, true⟩ : ReinfOption).As_actual) ∧
        (∀ o ∈ l₂, o.As_actual ≤ (⟨"B", 1, 100, 20, true⟩ : ReinfOption).As_actual)) :=
  ⟨by decide,
    (c5_selection
      [⟨"A", 2, 100, 30, true⟩, ⟨"B", 1, 100, 20, true⟩, ⟨"C", 1, 100, 10, false⟩]
      ⟨"B", 1, 100, 20, true⟩ (by decide)).1,
    (c5_selection
      [⟨"A", 2, 100, 30, true⟩, ⟨"B", 1, 100, 20, true⟩, ⟨"C", 1, 100, 10, false⟩]
      ⟨"B", 1, 100, 20, true⟩ (by decide)).2⟩

/-- C6: the compression flag is true exactly when K > 0.156; when
K ≤ 0.156 the lever arm follows the square-root formula capped at 0.95·d
and the square-root argument 0.25 − K/1.134 is non-negative; when
K > 0.156 the lever arm is the simplified 0.95·d. -/
theorem c6_threshold (span dead_load live_load cover : ℚ) (cg sg : String)
    (con : ConcreteProps) (st : SteelProps)
    (hc : CONCRETE_GRADES.lookup cg = some con)
    (hs : STEEL_GRADES.lookup sg = some st)
    (hd : effective_depth span cover ≠ 0) (hspan : 0 < span) :
    calculate_slab_design span dead_load live_load cg sg cover =
      .ok (designResult span dead_load live_load con st cover) ∧
    ((designResult span dead_load live_load con st cover).compression_reinforcement_needed
        = true ↔
      0.156 < (designResult span dead_load live_load con st cover).K) ∧
    ((designResult span dead_load live_load con st cover).K ≤ 0.156 →
      (0 : ℝ) ≤ 0.25 -
        ((designResult span dead_load live_load con st cover).K : ℝ) / 1.134 ∧
      (designResult span dead_load live_load con st cover).lever_arm =
        min (((designResult span dead_load live_load con st cover).effective_depth : ℝ) *
            (0.5 + Real.sqrt (0.25 -
              ((designResult span dead_load live_load con st cover).K : ℝ) / 1.134)))
          (0.95 *
            ((designResult span dead_load live_load con st cover).effective_depth : ℝ))) ∧
    (0.156 < (designResult span dead_load live_load con st cover).K →
      (designResult span dead_load live_load con st cover).lever_arm =
        0.95 *
          ((designResult span dead_load live_load con st cover).effective_depth : ℝ)) := by
  have hK : (designResult span dead_load live_load con st cover).K =
      K (moment (ultimate_load dead_load live_load) span)
        (effective_depth span cover) con.fck := rfl
  have hz : (designResult span dead_load live_load con st cover).lever_arm =
      lever_arm (effective_depth span cover)
        (K (moment (ultimate_load dead_load live_load) span)
          (effective_depth span cover) con.fck) := rfl
  have hde : (designResult span dead_load live_load con st cover).effective_depth =
      effective_depth span cover := rfl
  have hflag :
      (designResult span dead_load live_load con st cover).compression_reinforcement_needed =
        decide (0.156 < K (moment (ultimate_load dead_load live_load) span)
          (effective_depth span cover) con.fck) := rfl
  refine ⟨calc_ok hc hs hd hspan, ?_, ?_, ?_⟩
  · rw [hflag, hK]
    exact decide_eq_true_iff
  · intro hle
    rw [hK] at hle
    constructor
    · rw [hK]
      have h1 : ((K (moment (ultimate_load dead_load live_load) span)
            (effective_depth span cover) con.fck : ℚ) : ℝ) ≤ ((0.156 : ℚ) : ℝ) :=
        Rat.cast_le.mpr hle
      have h2 : (((0.156 : ℚ)) : ℝ) = (0.156 : ℝ) := by norm_num
      rw [h2] at h1
      have h3 := (div_le_div_iff_of_pos_right (show (0 : ℝ) < 1.134 by norm_num)).mpr h1
      have h4 : (0.156 : ℝ) / 1.134 ≤ 0.25 := by norm_num
      linarith
    · rw [hz, hde, hK]
      unfold lever_arm
      rw [if_pos hle]
  · intro hlt
    rw [hK] at hlt
    rw [hz, hde]
    unfold lever_arm
    rw [if_neg (not_le.mpr hlt)]

/-- Witness for C6 at Scenario A's input. -/
theorem c6_witness :
    (CONCRETE_GRADES.lookup "C25" = some ⟨25, 2.6⟩ ∧
     STEEL_GRADES.lookup "460" = some ⟨460, 200000⟩ ∧
     effective_depth 4 25 ≠ 0 ∧ (0 : ℚ) < 4) ∧
    (calculate_slab_design 4 3 2 "C25" "460" 25 =
      .ok (designResult 4 3 2 ⟨25, 2.6⟩ ⟨460, 200000⟩ 25) ∧
    ((designResult 4 3 2 ⟨25, 2.6⟩ ⟨460, 200000⟩ 25).compression_reinforcement_needed
        = true ↔
      0.156 < (designResult 4 3 2 ⟨25, 2.6⟩ ⟨460, 200000⟩ 25).K) ∧
    ((designResult 4 3 2 ⟨25, 2.6⟩ ⟨460, 200000⟩ 25).K ≤ 0.156 →
      (0 : ℝ) ≤ 0.25 -
        ((designResult 4 3 2 ⟨25, 2.6⟩ ⟨460, 200000⟩ 25).K : ℝ) / 1.134 ∧
      (designResult 4 3 2 ⟨25, 2.6⟩ ⟨460, 200000⟩ 25).lever_arm =
        min (((designResult 4 3 2 ⟨25, 2.6⟩ ⟨460, 200000⟩ 25).effective_depth : ℝ) *
            (0.5 + Real.sqrt (0.25 -
              ((designResult 4 3 2 ⟨25, 2.6⟩ ⟨460, 200000⟩ 25).K : ℝ) / 1.134)))
          (0.95 *
            ((designResult 4 3 2 ⟨25, 2.6⟩ ⟨460, 200000⟩ 25).effective_depth : ℝ))) ∧
    (0.156 < (designResult 4 3 2 ⟨25, 2.6⟩ ⟨460, 200000⟩ 25).K →
      (designResult 4 3 2 ⟨25, 2.6⟩ ⟨460, 200000⟩ 25).lever_arm =
        0.95 *
          ((designResult 4 3 2 ⟨25, 2.6⟩ ⟨460, 200000⟩ 25).effective_depth : ℝ))) := by
  have hd : effective_depth 4 25 ≠ 0 := by
    norm_num [effective_depth, slab_depth, estimated_depth, ceil_estA]
  exact ⟨⟨rfl, rfl, hd, by norm_num⟩,
    c6_threshold 4 3 2 25 "C25" "460" ⟨25, 2.6⟩ ⟨460, 200000⟩ rfl rfl hd (by norm_num)⟩

/-- C7: the minimum steel area is 0.0013·1000·slabDepth, the provided
steel area is exactly the maximum of the required and minimum areas, and
hence never falls below the minimum. -/
theorem c7_min_steel (span dead_load live_load cover : ℚ) (cg sg : String)
    (con : ConcreteProps) (st : SteelProps)
    (hc : CONCRETE_GRADES.lookup cg = some con)
    (hs : STEEL_GRADES.lookup sg = some st)
    (hd : effective_depth span cover ≠ 0) (hspan : 0 < span) :
    calculate_slab_design span dead_load live_load cg sg cover =
      .ok (designResult span dead_load live_load con st cover) ∧
    (designResult span dead_load live_load con st cover).As_min =
      0.0013 * 1000 *
        ((designResult span dead_load live_load con st cover).slab_depth : ℚ) ∧
    (designResult span dead_load live_load con st cover).As_provided =
      max (designResult span dead_load live_load con st cover).As_required
        ((designResult span dead_load live_load con st cover).As_min : ℝ) ∧
    ((designResult span dead_load live_load con st cover).As_min : ℝ) ≤
      (designResult span dead_load live_load con st cover).As_provided :=
  ⟨calc_ok hc hs hd hspan, rfl, rfl, le_max_right _ _⟩

/-- Witness for C7 at Scenario A's input. -/
theorem c7_witness :
    (CONCRETE_GRADES.lookup "C25" = some ⟨25, 2.6⟩ ∧
     STEEL_GRADES.lookup "460" = some ⟨460, 200000⟩ ∧
     effective_depth 4 25 ≠ 0 ∧ (0 : ℚ) < 4) ∧
    (calculate_slab_design 4 3 2 "C25" "460" 25 =
      .ok (designResult 4 3 2 ⟨25, 2.6⟩ ⟨460, 200000⟩ 25) ∧
    (designResult 4 3 2 ⟨25, 2.6⟩ ⟨460, 200000⟩ 25).As_min =
      0.0013 * 1000 *
        ((designResult 4 3 2 ⟨25, 2.6⟩ ⟨460, 200000⟩ 25).slab_depth : ℚ) ∧
    (designResult 4 3 2 ⟨25, 2.6⟩ ⟨460, 200000⟩ 25).As_provided =
      max (designResult 4 3 2 ⟨25, 2.6⟩ ⟨460, 200000⟩ 25).As_required
        ((designResult 4 3 2 ⟨25, 2.6⟩ ⟨460, 200000⟩ 25).As_min : ℝ) ∧
    ((designResult 4 3 2 ⟨25, 2.6⟩ ⟨460, 200000⟩ 25).As_min : ℝ) ≤
      (designResult 4 3 2 ⟨25, 2.6⟩ ⟨460, 200000⟩ 25).As_provided) := by
  have hd : effective_depth 4 25 ≠ 0 := by
    norm_num [effective_depth, slab_depth, estimated_depth, ceil_estA]
  exact ⟨⟨rfl, rfl, hd, by norm_num⟩,
    c7_min_steel 4 3 2 25 "C25" "460" ⟨25, 2.6⟩ ⟨460, 200000⟩ rfl rfl hd (by norm_num)⟩

/-- C8: for a positive span the slab depth is a positive multiple of 25 mm
and, cast back to millimetres, never under-runs the span·1000/25
estimate (the ceiling property). -/
theorem c8_slab_depth (span : ℚ) (h : 0 < span) :
    0 < slab_depth span ∧ (25 : ℤ) ∣ slab_depth span ∧
      estimated_depth span ≤ ((slab_depth span : ℤ) : ℚ) := by
  refine ⟨by linarith [slab_depth_ge h], ?_, estimated_le_slab span⟩
  unfold slab_depth
  exact dvd_mul_left 25 _

/-- Witness for C8 at span 4 m. -/
theorem c8_witness :
    (0 : ℚ) < 4 ∧
    (0 < slab_depth 4 ∧ (25 : ℤ) ∣ slab_depth 4 ∧
      estimated_depth 4 ≤ ((slab_depth 4 : ℤ) : ℚ)) :=
  ⟨by norm_num, c8_slab_depth 4 (by norm_num)⟩

/-- Every kept candidate list (positive provided area) has exactly one
entry per bar designation, in table order, and every entry's practical
spacing is at least 75 mm. -/
lemma reinforcementOptions_len {α : Type} [LinearOrderedField α] [FloorRing α]
    (asp asreq : α) (h : 0 < asp) :
    (reinforcementOptions asp asreq).length = 6 ∧
    (reinforcementOptions asp asreq).map (fun o => o.bar_size) =
      ["Y8", "Y10", "Y12", "Y16", "Y20", "Y25"] ∧
    ∀ o ∈ reinforcementOptions asp asreq, 75 ≤ o.spacing := by
  rw [reinforcementOptions_pos asp asreq h]
  refine ⟨rfl, rfl, ?_⟩
  intro o ho
  simp only [List.mem_cons, List.not_mem_nil, or_false] at ho
  rcases ho with rfl | rfl | rfl | rfl | rfl | rfl <;>
    exact (mkOption_props _ _ _).2.2.2.1

/-- C9: every evaluated candidate's practical spacing is the floored
multiple of 25 mm clamped into [75, 300] — hence always a multiple of 25
in that range — and its actual steel area is barArea·1000 divided by that
spacing. -/
theorem c9_spacing {α : Type} [LinearOrderedField α] [FloorRing α]
    (asp asreq : α) (opt : ReinfOption) (h : opt ∈ reinforcementOptions asp asreq) :
    opt.spacing = max 75 (min (⌊(opt.bar_area : α) * 1000 / asp / 25⌋ * 25) 300) ∧
    75 ≤ opt.spacing ∧ opt.spacing ≤ 300 ∧ (25 : ℤ) ∣ opt.spacing ∧
    opt.As_actual = opt.bar_area * 1000 / ((opt.spacing : ℤ) : ℚ) := by
  obtain ⟨-, p, -, rfl⟩ := mem_reinforcementOptions h
  obtain ⟨h1, h2, h3, h4, h5, h6, h7⟩ := mkOption_props asp asreq p
  rw [h2]
  exact ⟨h3, h4, h5, h6, h7⟩

/-- Witness for C9: the Y8 candidate for a provided area of 400 mm²/m. -/
theorem c9_witness :
    (mkOption (400 : ℝ) 380 ("Y8", 50.3) ∈ reinforcementOptions (400 : ℝ) 380) ∧
    ((mkOption (400 : ℝ) 380 ("Y8", 50.3)).spacing =
      max 75 (min
        (⌊((mkOption (400 : ℝ) 380 ("Y8", 50.3)).bar_area : ℝ) * 1000 / 400 / 25⌋ * 25)
        300) ∧
    75 ≤ (mkOption (400 : ℝ) 380 ("Y8", 50.3)).spacing ∧
    (mkOption (400 : ℝ) 380 ("Y8", 50.3)).spacing ≤ 300 ∧
    (25 : ℤ) ∣ (mkOption (400 : ℝ) 380 ("Y8", 50.3)).spacing ∧
    (mkOption (400 : ℝ) 380 ("Y8", 50.3)).As_actual =
      (mkOption (400 : ℝ) 380 ("Y8", 50.3)).bar_area * 1000 /
        (((mkOption (400 : ℝ) 380 ("Y8", 50.3)).spacing : ℤ) : ℚ)) := by
  have hmem : mkOption (400 : ℝ) 380 ("Y8", 50.3) ∈ reinforcementOptions (400 : ℝ) 380 := by
    rw [reinforcementOptions_pos (400 : ℝ) 380 (by norm_num)]
    exact List.mem_cons_self _ _
  exact ⟨hmem, c9_spacing 400 380 _ hmem⟩

/-- C10: with a positive span and both grades found, the selection step is
never starved — the call never fails with the empty-selection error; a
zero effective depth aborts earlier at the K step; otherwise the call
succeeds with slab depth ≥ 25 mm, minimum steel area ≥ 32.5 mm², a
strictly positive provided area, exactly one candidate per bar designation
(six, in table order) and every candidate spacing ≥ 75 mm (so no spacing
division by zero). -/
theorem c10_safety (span dead_load live_load cover : ℚ) (cg sg : String)
    (con : ConcreteProps) (st : SteelProps)
    (hc : CONCRETE_GRADES.lookup cg = some con)
    (hs : STEEL_GRADES.lookup sg = some st)
    (hspan : 0 < span) :
    calculate_slab_design span dead_load live_load cg sg cover ≠
      .error .valueError ∧
    (effective_depth span cover = 0 →
      calculate_slab_design span dead_load live_load cg sg cover =
        .error .zeroDivisionError) ∧
    (effective_depth span cover ≠ 0 →
      calculate_slab_design span dead_load live_load cg sg cover =
        .ok (designResult span dead_load live_load con st cover) ∧
      25 ≤ (designResult span dead_load live_load con st cover).slab_depth ∧
      32.5 ≤ (designResult span dead_load live_load con st cover).As_min ∧
      0 < (designResult span dead_load live_load con st cover).As_provided ∧
      (designResult span dead_load live_load con st cover).reinforcement_options.length
        = 6 ∧
      (designResult span dead_load live_load con st cover).reinforcement_options.map
        (fun o => o.bar_size) = ["Y8", "Y10", "Y12", "Y16", "Y20", "Y25"] ∧
      ∀ o ∈ (designResult span dead_load live_load con st cover).reinforcement_options,
        75 ≤ o.spacing) := by
  have hslab : 25 ≤ slab_depth span := slab_depth_ge hspan
  refine ⟨?_, fun hd0 => calc_zero hc hs hd0, fun hd => ?_⟩
  · by_cases hd0 : effective_depth span cover = 0
    · rw [calc_zero hc hs hd0]
      simp
    · rw [calc_ok hc hs hd0 hspan]
      simp
  · obtain ⟨hlen, hmap, hsp⟩ :=
      reinforcementOptions_len _ _ (As_provided_pos
        (As_required (moment (ultimate_load dead_load live_load) span) st.fy
          (lever_arm (effective_depth span cover)
            (K (moment (ultimate_load dead_load live_load) span)
              (effective_depth span cover) con.fck))) hslab)
    exact ⟨calc_ok hc hs hd hspan, hslab, As_min_ge hslab,
      As_provided_pos _ hslab, hlen, hmap, hsp⟩

/-- Witness for C10 at Scenario A's input. -/
theorem c10_witness :
    (CONCRETE_GRADES.lookup "C25" = some ⟨25, 2.6⟩ ∧
     STEEL_GRADES.lookup "460" = some ⟨460, 200000⟩ ∧ (0 : ℚ) < 4) ∧
    (calculate_slab_design 4 3 2 "C25" "460" 25 ≠ .error .valueError ∧
    (effective_depth 4 25 = 0 →
      calculate_slab_design 4 3 2 "C25" "460" 25 = .error .zeroDivisionError) ∧
    (effective_depth 4 25 ≠ 0 →
      calculate_slab_design 4 3 2 "C25" "460" 25 =
        .ok (designResult 4 3 2 ⟨25, 2.6⟩ ⟨460, 200000⟩ 25) ∧
      25 ≤ (designResult 4 3 2 ⟨25, 2.6⟩ ⟨460, 200000⟩ 25).slab_depth ∧
      32.5 ≤ (designResult 4 3 2 ⟨25, 2.6⟩ ⟨460, 200000⟩ 25).As_min ∧
      0 < (designResult 4 3 2 ⟨25, 2.6⟩ ⟨460, 200000⟩ 25).As_provided ∧
      (designResult 4 3 2 ⟨25, 2.6⟩ ⟨460, 200000⟩ 25).reinforcement_options.length
        = 6 ∧
      (designResult 4 3 2 ⟨25, 2.6⟩ ⟨460, 200000⟩ 25).reinforcement_options.map
        (fun o => o.bar_size) = ["Y8", "Y10", "Y12", "Y16", "Y20", "Y25"] ∧
      ∀ o ∈ (designResult 4 3 2 ⟨25, 2.6⟩ ⟨460, 200000⟩ 25).reinforcement_options,
        75 ≤ o.spacing)) :=
  ⟨⟨rfl, rfl, by norm_num⟩,
    c10_safety 4 3 2 25 "C25" "460" ⟨25, 2.6⟩ ⟨460, 200000⟩ rfl rfl (by norm_num)⟩

end StructNova
